import Mathlib

/-!
Shallow embedding of the voice-messenger repository (client session
coordinator `src/client/main.py`, relay hub `src/server/server.py`, and
relay transport `src/client/network.py`), together with proofs settling
the frozen claims about the natural-language specification.

Modelling conventions:
* Python dicts keyed by friend/device ids become total functions
  `String → α` updated with `updF` (point update), or insertion-ordered
  `List String` where the source iterates over dict keys.
* Side effects (network sends, audio commands, timer resets) are
  collected in an ordered effect list returned next to the new state.
  Logging, LED refresh calls and state-file persistence are elided: they
  read state but never change the data the claims speak about.
* Timers fire as explicit events (`Event.playbackFinished`,
  `Event.conversationTimeout`), mirroring the callbacks the Python
  `threading.Timer` objects invoke.
* `audio.stop_recording()` returning `Optional[str]` is modelled by the
  record-button event carrying the capture result; `uuid.uuid4()` and
  `time.time()` are supplied by the environment (`Env.freshId`,
  `Env.now`), and `Path(...).exists()` by `Env.fileExists`.
-/

namespace VoiceMessenger

/-- Point update of a total map, mirroring Python dict assignment
`d[k] = v` for maps we model as total functions. -/
def updF {α : Type} (m : String → α) (k : String) (v : α) : String → α :=
  fun x => if x = k then v else m x

/-- `State` enum from `main.py` (`IDLE`, `RECORDING`, `PLAYING`). -/
inductive SState where
  | idle
  | recording
  | playing
deriving DecidableEq, Repr

/-- Message direction (`'sent'` / `'received'` strings in the source). -/
inductive Direction where
  | sent
  | received
deriving DecidableEq, Repr

/-- One entry of a per-friend conversation history:
`{id, file, timestamp, heard, direction}` in `main.py`. -/
structure Message where
  id : String
  file : String
  timestamp : Nat
  heard : Bool
  direction : Direction
deriving DecidableEq, Repr

instance : Inhabited Message :=
  ⟨{ id := "", file := "", timestamp := 0, heard := false, direction := Direction.received }⟩

/-- Payload delivered by the network layer with an incoming message
(`{'id', 'file', 'timestamp'}` built in `network.py`). -/
structure MsgData where
  id : String
  file : String
  timestamp : Nat
deriving DecidableEq, Repr

/-- Peer status string returned by `WebSocketNetwork.get_peer_status`. -/
inductive PeerStatus where
  | online
  | offline
  | disconnected
deriving DecidableEq, Repr

/-- Commands the coordinator issues to its collaborators (network sends,
audio subsystem, timers).  Ordered as issued by the source. -/
inductive Effect where
  | sendRecordingStarted (friendId : String)
  | sendRecordingStopped (friendId : String)
  | sendVoice (friendId : String) (file : String)
  | notifyHeard (friendId : String) (messageId : String)
  | startCapture
  | stopCapture
  | playAudio (file : String)
  | stopPlaybackAudio
  | resetConvTimeout
  | cancelConvTimeout
  | flashAllRed
deriving DecidableEq, Repr

/-- External facts the coordinator consults during a transition:
friend presence (`network.get_peer_status`), audio-file existence
(`Path(...).exists()`), and the fresh uuid / current time used when a
recording is turned into a `sent` message. -/
structure Env where
  peerStatus : String → PeerStatus
  fileExists : String → Bool
  freshId : String
  now : Nat

/-- The mutable fields of `VoiceMessenger` that the claims are about. -/
structure VM where
  state : SState
  selectedFriend : Option String
  messages : String → List Message
  messageSentStatus : String → Bool
  friendIsRecording : String → Bool
  playbackFriend : Option String
  playbackIndex : Int
  conversationMode : Bool
  pendingAutoplay : Option (String × MsgData)

/-- Initial coordinator state (`VoiceMessenger.__init__` before
`load_state`; `selectedFriend` is then set to the first configured
friend, which we take as a parameter). -/
def initVM (firstFriend : Option String) : VM :=
  { state := SState.idle
    selectedFriend := firstFriend
    messages := fun _ => []
    messageSentStatus := fun _ => false
    friendIsRecording := fun _ => false
    playbackFriend := none
    playbackIndex := -1
    conversationMode := false
    pendingAutoplay := none }

/-- `VoiceMessenger._stop_playback`. -/
def stop_playback (st : VM) : VM × List Effect :=
  let st := { st with playbackFriend := none, playbackIndex := -1 }
  if st.state = SState.playing then
    ({ st with state := SState.idle }, [Effect.stopPlaybackAudio])
  else
    (st, [Effect.stopPlaybackAudio])

/-- `VoiceMessenger._on_playback_finished` (the playback timer callback). -/
def on_playback_finished (st : VM) : VM × List Effect :=
  if st.state ≠ SState.playing then (st, [])
  else stop_playback st

/-- `VoiceMessenger._play_current_message`: play the message at
`playback_index`, marking an unheard received message as heard (and
notifying the sender) the moment its playback starts. -/
def play_current_message (env : Env) (st : VM) : VM × List Effect :=
  match st.playbackFriend with
  | none => (st, [])
  | some pf =>
    let msgs := st.messages pf
    if msgs.isEmpty ∨ st.playbackIndex < 0 ∨ (msgs.length : Int) ≤ st.playbackIndex then
      stop_playback st
    else
      let i := st.playbackIndex.toNat
      let message := msgs.getD i default
      let st := if st.state ≠ SState.playing then { st with state := SState.playing } else st
      if ¬ env.fileExists message.file then
        on_playback_finished st
      else
        if message.direction = Direction.received ∧ message.heard = false then
          ({ st with
              messages := updF st.messages pf (msgs.set i { message with heard := true }) },
           [Effect.notifyHeard pf message.id, Effect.playAudio message.file])
        else (st, [Effect.playAudio message.file])

/-- `VoiceMessenger._start_playback`. -/
def start_playback (env : Env) (st : VM) (friendId : String) : VM × List Effect :=
  if (st.messages friendId).isEmpty then (st, [])
  else
    play_current_message env { st with playbackFriend := some friendId, playbackIndex := 0 }

/-- `VoiceMessenger._select_friend` (the name lookup and LED refresh are
presentation only). -/
def select_friend (st : VM) (friendId : String) : VM :=
  { st with selectedFriend := some friendId }

/-- `VoiceMessenger._auto_play_message` (conversation-mode autoplay). -/
def auto_play_message (env : Env) (st : VM) (friendId : String) : VM × List Effect :=
  if st.state ≠ SState.idle then (st, [])
  else
    let st := if st.selectedFriend ≠ some friendId then select_friend st friendId else st
    play_current_message env { st with playbackFriend := some friendId, playbackIndex := 0 }

/-- `VoiceMessenger._play_previous_message`: advance to the next older
message, wrapping to index 0 past the end. -/
def play_previous_message (env : Env) (st : VM) : VM × List Effect :=
  match st.playbackFriend with
  | none => (st, [])
  | some pf =>
    let idx := st.playbackIndex + 1
    let msgs := st.messages pf
    let idx := if ((msgs.length : Int)) ≤ idx then 0 else idx
    let r := play_current_message env { st with playbackIndex := idx }
    (r.1, Effect.stopPlaybackAudio :: r.2)

/-- `VoiceMessenger._start_recording`. -/
def start_recording (st : VM) : VM × List Effect :=
  match st.selectedFriend with
  | none => (st, [])
  | some f =>
    ({ st with state := SState.recording },
     [Effect.sendRecordingStarted f, Effect.startCapture])

/-- `VoiceMessenger._cancel_recording`. -/
def cancel_recording (st : VM) : VM × List Effect :=
  if st.state ≠ SState.recording then (st, [])
  else
    let effs :=
      match st.selectedFriend with
      | some f => [Effect.sendRecordingStopped f]
      | none => []
    ({ st with state := SState.idle, pendingAutoplay := none },
     effs ++ [Effect.stopCapture])

/-- `VoiceMessenger._stop_recording_and_send`: stop capture, send the
message when capture yielded audio, return to idle, then run any pending
conversation-mode autoplay.  `capture` is the value returned by
`audio.stop_recording()`. -/
def stop_recording_and_send (env : Env) (st : VM) (capture : Option String) :
    VM × List Effect :=
  if st.state ≠ SState.recording then (st, [])
  else
    match st.selectedFriend with
    | none => (st, [])
    | some f =>
      let effs := [Effect.sendRecordingStopped f, Effect.stopCapture]
      let p :=
        match capture with
        | some audioFile =>
          let msgEntry : Message :=
            { id := env.freshId
              file := audioFile
              timestamp := env.now
              heard := true
              direction := Direction.sent }
          ({ st with
              messages := updF st.messages f (msgEntry :: st.messages f)
              messageSentStatus := updF st.messageSentStatus f true },
           effs ++ [Effect.sendVoice f audioFile])
        | none => (st, effs)
      let st2 := { p.1 with state := SState.idle }
      match st2.pendingAutoplay with
      | some (pendingFriend, _) =>
        let r := auto_play_message env { st2 with pendingAutoplay := none } pendingFriend
        (r.1, p.2 ++ r.2)
      | none => (st2, p.2)

/-- `VoiceMessenger.handle_friend_button`. -/
def handle_friend_button (env : Env) (st : VM) (friendId : String) : VM × List Effect :=
  match st.state with
  | SState.recording => cancel_recording st
  | SState.playing =>
    if st.selectedFriend = some friendId then
      play_previous_message env st
    else
      let r := stop_playback st
      (select_friend r.1 friendId, r.2)
  | SState.idle =>
    if st.selectedFriend = some friendId then
      start_playback env st friendId
    else
      (select_friend st friendId, [])

/-- `VoiceMessenger.handle_record_button`. -/
def handle_record_button (env : Env) (st : VM) (capture : Option String) :
    VM × List Effect :=
  match st.state with
  | SState.recording => stop_recording_and_send env st capture
  | SState.playing => stop_playback st
  | SState.idle =>
    match st.selectedFriend with
    | none => (st, [])
    | some f =>
      if env.peerStatus f = PeerStatus.online then start_recording st
      else (st, [Effect.flashAllRed])

/-- `VoiceMessenger.handle_dialog_button`: toggle conversation mode,
cancelling any active playback/recording first. -/
def handle_dialog_button (st : VM) : VM × List Effect :=
  let r :=
    match st.state with
    | SState.playing => stop_playback st
    | SState.recording => cancel_recording st
    | SState.idle => (st, [])
  let st2 := { r.1 with conversationMode := ¬ r.1.conversationMode }
  if st2.conversationMode then (st2, r.2 ++ [Effect.resetConvTimeout])
  else (st2, r.2 ++ [Effect.cancelConvTimeout])

/-- `VoiceMessenger.handle_message_received`: prepend the received
message (`heard = False`), then apply the conversation-mode policy. -/
def handle_message_received (env : Env) (st : VM) (friendId : String) (md : MsgData) :
    VM × List Effect :=
  let newMsg : Message :=
    { id := md.id
      file := md.file
      timestamp := md.timestamp
      heard := false
      direction := Direction.received }
  let st := { st with messages := updF st.messages friendId (newMsg :: st.messages friendId) }
  if st.conversationMode then
    let effs := [Effect.resetConvTimeout]
    if st.state = SState.recording then
      ({ st with pendingAutoplay := some (friendId, md) }, effs)
    else if st.state = SState.idle then
      let r := auto_play_message env st friendId
      (r.1, effs ++ r.2)
    else
      (st, effs)
  else
    (st, [])

/-- `VoiceMessenger.handle_message_heard`: clear the friend's
sent-status flag; the acknowledged message id is not consulted. -/
def handle_message_heard (st : VM) (friendId : String) (_messageId : String) :
    VM × List Effect :=
  ({ st with messageSentStatus := updF st.messageSentStatus friendId false }, [])

/-- `VoiceMessenger.handle_recording_started`. -/
def handle_recording_started (st : VM) (friendId : String) : VM × List Effect :=
  ({ st with friendIsRecording := updF st.friendIsRecording friendId true }, [])

/-- `VoiceMessenger.handle_recording_stopped`. -/
def handle_recording_stopped (st : VM) (friendId : String) : VM × List Effect :=
  ({ st with friendIsRecording := updF st.friendIsRecording friendId false }, [])

/-- `VoiceMessenger._conversation_timeout_expired`. -/
def conversation_timeout_expired (st : VM) : VM × List Effect :=
  ({ st with conversationMode := false }, [])

/-- The coordinator's inbound events (hardware callbacks, network
callbacks, timer callbacks).  The record-button event carries the
result of `audio.stop_recording()`, consulted only when it stops an
active recording. -/
inductive Event where
  | friendButton (friendId : String)
  | recordButton (capture : Option String)
  | dialogButton
  | messageArrived (friendId : String) (md : MsgData)
  | messageHeardAck (friendId : String) (messageId : String)
  | peerRecordingStarted (friendId : String)
  | peerRecordingStopped (friendId : String)
  | playbackFinished
  | conversationTimeout

/-- One coordinator transition: dispatch an event to its handler. -/
def step (env : Env) (ev : Event) (st : VM) : VM × List Effect :=
  match ev with
  | Event.friendButton f => handle_friend_button env st f
  | Event.recordButton capture => handle_record_button env st capture
  | Event.dialogButton => handle_dialog_button st
  | Event.messageArrived f md => handle_message_received env st f md
  | Event.messageHeardAck f mid => handle_message_heard st f mid
  | Event.peerRecordingStarted f => handle_recording_started st f
  | Event.peerRecordingStopped f => handle_recording_stopped st f
  | Event.playbackFinished => on_playback_finished st
  | Event.conversationTimeout => conversation_timeout_expired st

/-! ### LED priority computation (`VoiceMessenger.update_rgb_led`) -/

/-- Commands issued to one LED of the WS2812B strip
(`led_strip.py`: `start_pulse`, `start_rainbow`, `set_color`, `off`). -/
inductive LedCmd where
  | pulse (r g b : Nat)
  | rainbow
  | solid (r g b : Nat)
  | off
deriving DecidableEq, Repr

/-- `COLOR_RED` from `led_strip.py`. -/
def COLOR_RED : Nat × Nat × Nat := (255, 0, 0)

/-- `COLOR_GREEN` from `led_strip.py`. -/
def COLOR_GREEN : Nat × Nat × Nat := (0, 255, 0)

/-- `COLOR_BLUE` from `led_strip.py`. -/
def COLOR_BLUE : Nat × Nat × Nat := (0, 0, 255)

/-- Per-friend LED configuration consulted by `update_rgb_led`:
`none` models a friend missing from `config.friends` or one whose
config has no `led_index`; both make the source return early. -/
structure LedEnv where
  ledIndex : String → Option Nat

/-- `VoiceMessenger.update_rgb_led`, translated from the source's
priority chain; returns the command issued to the friend's RGB LED
(`none` when the source returns without touching the strip). -/
def update_rgb_led (lenv : LedEnv) (env : Env) (st : VM) (friendId : String) :
    Option LedCmd :=
  match lenv.ledIndex friendId with
  | none => none
  | some _ =>
    if st.state = SState.recording ∧ st.selectedFriend = some friendId then
      some (LedCmd.pulse COLOR_RED.1 COLOR_RED.2.1 COLOR_RED.2.2)
    else if st.friendIsRecording friendId then
      some LedCmd.rainbow
    else
      let unheard :=
        ((st.messages friendId).filter
          (fun msg => ¬ msg.heard ∧ msg.direction = Direction.received)).length
      if 0 < unheard then
        some (LedCmd.pulse COLOR_GREEN.1 COLOR_GREEN.2.1 COLOR_GREEN.2.2)
      else if st.messageSentStatus friendId then
        some (LedCmd.solid COLOR_BLUE.1 COLOR_BLUE.2.1 COLOR_BLUE.2.2)
      else if env.peerStatus friendId = PeerStatus.online then
        some (LedCmd.solid COLOR_GREEN.1 COLOR_GREEN.2.1 COLOR_GREEN.2.2)
      else
        some LedCmd.off

/-- The LED indicator exactly as the specification words it: a pure
function of coordinator state, evaluated in priority order with the
first matching condition winning.  Written from the spec's sentence,
to be compared with `update_rgb_led` (which is written from the
source). -/
def ledSpec (lenv : LedEnv) (env : Env) (st : VM) (friendId : String) :
    Option LedCmd :=
  (lenv.ledIndex friendId).map (fun _ =>
    if st.state = SState.recording ∧ st.selectedFriend = some friendId then
      LedCmd.pulse COLOR_RED.1 COLOR_RED.2.1 COLOR_RED.2.2
    else if st.friendIsRecording friendId then
      LedCmd.rainbow
    else if (st.messages friendId).any
        (fun msg => msg.direction = Direction.received ∧ msg.heard = false) then
      LedCmd.pulse COLOR_GREEN.1 COLOR_GREEN.2.1 COLOR_GREEN.2.2
    else if st.messageSentStatus friendId then
      LedCmd.solid COLOR_BLUE.1 COLOR_BLUE.2.1 COLOR_BLUE.2.2
    else if env.peerStatus friendId = PeerStatus.online then
      LedCmd.solid COLOR_GREEN.1 COLOR_GREEN.2.1 COLOR_GREEN.2.2
    else
      LedCmd.off)

/-! ### Playback-cursor well-formedness (implicit invariant) -/

/-- The coordinator's playback cursor is well-formed: while `Playing`
the cursor names the selected friend, whose conversation is non-empty,
with the index in bounds; outside `Playing` the cursor is reset to the
sentinel values the source uses (`playback_friend = None`,
`playback_index = -1`). -/
def cursorWellFormed (st : VM) : Prop :=
  (st.state = SState.playing →
    st.playbackFriend.isSome = true ∧
    st.playbackFriend = st.selectedFriend ∧
    0 ≤ st.playbackIndex ∧
    st.playbackIndex < ((st.messages (st.playbackFriend.getD "")).length : Int)) ∧
  (st.state ≠ SState.playing → st.playbackFriend = none ∧ st.playbackIndex = -1)

instance (st : VM) : Decidable (cursorWellFormed st) := by
  unfold cursorWellFormed
  infer_instance

end VoiceMessenger

namespace RelayHub

/-!
Embedding of the relay hub (`src/server/server.py`).  A live WebSocket
connection is identified by its device id: `connected` is the
insertion-ordered key list of the `connected_devices` dict, and an
effect `send d m` stands for `connected_devices[d].send_json(m)`.
`reply m` stands for `ws.send_json(m)` on the connection currently
being served (used in `handle_register`, where the source still holds
the raw `ws`).  Handlers that the source writes without touching the
tables return only their effect list.
-/

/-- `recording_started` / `recording_stopped` discriminator. -/
inductive RecKind where
  | started
  | stopped
deriving DecidableEq, Repr

/-- Hub-to-client wire messages (the JSON objects the server sends). -/
inductive SMsg where
  | registered (deviceId : String) (serverTime : String)
  | friendsOnline (friends : List String)
  | friendOnline (friendId : String)
  | friendOffline (friendId : String)
  | voiceMessage (senderId : Option String) (messageId : String)
      (audioData : String) (timestamp : Option Nat)
  | messageHeard (listenerId : Option String) (messageId : String)
  | recordingStatus (kind : RecKind) (senderId : Option String)
  | messageDelivered (recipientId : String) (messageId : String)
  | recipientOffline (recipientId : String) (messageId : String)
  | errorMsg (message : String)
deriving DecidableEq, Repr

/-- Observable actions of a hub handler. -/
inductive HubEff where
  | send (deviceId : String) (msg : SMsg)
  | reply (msg : SMsg)
  | saveRegistry
deriving DecidableEq, Repr

/-- Entry of the in-memory `device_info` table. -/
structure DevInfo where
  name : String
  friends : List String
  lastSeen : String
deriving DecidableEq, Repr

/-- Entry of the persistent `device_registry`. -/
structure RegEntry where
  name : String
  registeredAt : String
  lastSeen : String
deriving DecidableEq, Repr

/-- Hub runtime state: the connected table (key order of the Python
dict), the in-memory device info, and the durable registry. -/
structure Hub where
  connected : List String
  deviceInfo : String → Option DevInfo
  registry : String → Option RegEntry

/-- Key insertion for an insertion-ordered dict: assigning to an
existing key keeps its position, a new key goes last. -/
def connInsert (l : List String) (d : String) : List String :=
  if d ∈ l then l else l ++ [d]

/-- Python truthiness of an optional string field (`not x` is true for
a missing field and for the empty string). -/
def blank : Option String → Bool
  | none => true
  | some s => s.isEmpty

/-- Fields of an inbound `register` message; `device_name` and
`friends` carry the source's `data.get` defaults already applied. -/
structure RegData where
  deviceId : Option String
  deviceName : String
  friends : List String
deriving DecidableEq, Repr

/-- Fields of an inbound `voice_message`. -/
structure VoiceData where
  recipientId : Option String
  messageId : Option String
  audioData : Option String
  timestamp : Option Nat
deriving DecidableEq, Repr

/-- Fields of an inbound `message_heard`. -/
structure HeardData where
  senderId : Option String
  messageId : Option String
deriving DecidableEq, Repr

/-- `handle_register`: record the connection, update the directory,
confirm registration, report which declared friends are online, then
notify other connected devices that list the registrant.  Returns
the updated hub, the ordered effects, and the device id the
connection handler remembers. -/
def handle_register (now : String) (hub : Hub) (data : RegData) :
    Hub × List HubEff × Option String :=
  match data.deviceId with
  | none => (hub, [HubEff.reply (SMsg.errorMsg "device_id required")], none)
  | some d =>
    if d.isEmpty then (hub, [HubEff.reply (SMsg.errorMsg "device_id required")], none)
    else
      let hub :=
        { hub with
            connected := connInsert hub.connected d
            deviceInfo := VoiceMessenger.updF hub.deviceInfo d
              (some { name := data.deviceName, friends := data.friends, lastSeen := now }) }
      let newEntry : RegEntry :=
        match hub.registry d with
        | some entry => { entry with name := data.deviceName, lastSeen := now }
        | none => { name := data.deviceName, registeredAt := now, lastSeen := now }
      let hub := { hub with registry := VoiceMessenger.updF hub.registry d (some newEntry) }
      let effs := [HubEff.saveRegistry, HubEff.reply (SMsg.registered d now)]
      let onlineFriends := data.friends.filter (fun fid => fid ∈ hub.connected)
      let effs :=
        if onlineFriends.isEmpty then effs
        else effs ++ [HubEff.reply (SMsg.friendsOnline onlineFriends)]
      let notifyEffs :=
        (hub.connected.filter (fun other =>
            other ≠ d ∧ d ∈ (((hub.deviceInfo other).map DevInfo.friends).getD []))).map
          (fun other => HubEff.send other (SMsg.friendOnline d))
      (hub, effs ++ notifyEffs, some d)

/-- `handle_voice_message`: drop invalid messages; tell a connected
sender when the recipient is offline; otherwise forward the payload
verbatim and confirm delivery.  The hub tables are never touched. -/
def handle_voice_message (hub : Hub) (data : VoiceData) (senderId : Option String) :
    List HubEff :=
  if blank data.recipientId ∨ blank data.messageId ∨ blank data.audioData then []
  else
    let rid := data.recipientId.getD ""
    let mid := data.messageId.getD ""
    let audio := data.audioData.getD ""
    let senderConn : Option String :=
      match senderId with
      | some s => if s ∈ hub.connected then some s else none
      | none => none
    if rid ∉ hub.connected then
      match senderConn with
      | some s => [HubEff.send s (SMsg.recipientOffline rid mid)]
      | none => []
    else
      [HubEff.send rid (SMsg.voiceMessage senderId mid audio data.timestamp)] ++
        match senderConn with
        | some s => [HubEff.send s (SMsg.messageDelivered rid mid)]
        | none => []

/-- `handle_message_heard`: forward the heard notification to the
original sender when connected; silently drop it otherwise. -/
def handle_message_heard (hub : Hub) (data : HeardData) (listenerId : Option String) :
    List HubEff :=
  if blank data.senderId ∨ blank data.messageId then []
  else
    let sid := data.senderId.getD ""
    let mid := data.messageId.getD ""
    if sid ∉ hub.connected then []
    else [HubEff.send sid (SMsg.messageHeard listenerId mid)]

/-- `handle_recording_status`: forward `recording_started` /
`recording_stopped` to the recipient when connected; silently drop
otherwise. -/
def handle_recording_status (hub : Hub) (kind : RecKind) (recipientId : Option String)
    (senderId : Option String) : List HubEff :=
  if blank recipientId then []
  else
    let rid := recipientId.getD ""
    if rid ∉ hub.connected then []
    else [HubEff.send rid (SMsg.recordingStatus kind senderId)]

end RelayHub

namespace Transport

/-!
Embedding of the client transport (`src/client/network.py`,
`WebSocketNetwork`), restricted to the registration/send discipline the
claims are about.  The connection handler `_websocket_handler` runs one
iteration per successful connect: it sets `connected = True`, sends the
`register` message, then reads inbound messages until the connection
drops.  `send_message` can be called from the coordinator thread at any
point; its outcome is modelled explicitly.
-/

/-- Client-to-hub wire messages relevant here. -/
inductive WireMsg where
  | register (deviceId : String) (deviceName : String) (friends : List String)
  | voiceMessage (recipientId : String) (messageId : String)
      (audioData : String) (timestamp : Nat)
deriving DecidableEq, Repr

/-- Static configuration consulted by the transport: one entry per
configured friend (`config.friends[fid]['device_id']` may be absent). -/
structure NetCfg where
  deviceId : String
  deviceName : String
  friendDeviceId : String → Option (Option String)
  friendIds : List String
  mockMode : Bool

/-- Nondeterministic inputs of a send: the fresh uuid, the clock, the
bytes read from the audio file, and base64 encoding (kept opaque). -/
structure NetEnv where
  freshId : String
  now : Nat
  readFile : String → String
  b64 : String → String

/-- Transport state.  `sawRegistered` is a history variable only: it
records whether `_handle_message` has processed a `registered`
confirmation on the current connection (the source merely logs that
message and keeps no flag); no transition reads it, it exists so that
claims about "before the registered confirmation arrived" can be
stated. -/
structure WSN where
  running : Bool
  connected : Bool
  sentMessages : List String
  sawRegistered : Bool
deriving DecidableEq, Repr

/-- Transport state right after `start()` launched the socket thread. -/
def initWSN : WSN :=
  { running := true, connected := false, sentMessages := [], sawRegistered := false }

/-- How a `send_message` call ended.  Every branch of the source
returns `None` to the caller; the constructor records which exit was
taken.  `notConnectedDrop` is the `print`-and-return branch: the
message is discarded, nothing is queued and no callback or exception
reaches the coordinator. -/
inductive SendResult where
  | noFriendConfig
  | noDeviceId
  | mockSent
  | notConnectedDrop
  | transmitted (payload : WireMsg)
deriving DecidableEq, Repr

/-- `WebSocketNetwork.send_message`: look up the friend's device id,
create and track a message id, then either simulate (mock), drop when
not connected, or schedule the JSON payload on the socket. -/
def send_message (cfg : NetCfg) (env : NetEnv) (st : WSN) (friendId : String)
    (audioFile : String) : WSN × SendResult :=
  match cfg.friendDeviceId friendId with
  | none => (st, SendResult.noFriendConfig)
  | some fdid =>
    match fdid with
    | none => (st, SendResult.noDeviceId)
    | some targetDeviceId =>
      let audioData := env.readFile audioFile
      let messageId := env.freshId
      let st := { st with sentMessages := st.sentMessages ++ [messageId] }
      if cfg.mockMode then (st, SendResult.mockSent)
      else if ¬ st.connected then (st, SendResult.notConnectedDrop)
      else
        (st, SendResult.transmitted
          (WireMsg.voiceMessage targetDeviceId messageId (env.b64 audioData) env.now))

/-- The `register` message `_register` builds: friends are the
configured friends' device ids, skipping entries without one. -/
def registerMsg (cfg : NetCfg) : WireMsg :=
  WireMsg.register cfg.deviceId cfg.deviceName
    (cfg.friendIds.filterMap (fun fid =>
      match cfg.friendDeviceId fid with
      | some (some d) => some d
      | _ => none))

/-- The connect prefix of `_websocket_handler`: on a successful
`websockets.connect` the handler stores the socket, sets
`connected = True`, and sends the `register` message before reading
any inbound traffic.  The returned list holds the wire messages the
handler itself sent before entering its read loop. -/
def on_connect (cfg : NetCfg) (st : WSN) : WSN × List WireMsg :=
  ({ st with connected := true, sawRegistered := false }, [registerMsg cfg])

/-- `_handle_message` on a `registered` confirmation: the source only
logs it; the model records it in the history variable. -/
def handle_registered (st : WSN) : WSN :=
  { st with sawRegistered := true }

end Transport

namespace VoiceMessenger

/-! ### Heard-flag discipline -/

/-- Creation rule for inserted messages: a `sent` message is created
already heard, a `received` message is created unheard. -/
def insertRuleOK (m : Message) : Prop :=
  (m.direction = Direction.sent ∧ m.heard = true) ∨
  (m.direction = Direction.received ∧ m.heard = false)

instance (m : Message) : Decidable (insertRuleOK m) := by
  unfold insertRuleOK; exact instDecidableOr

/-- `new` is `old` with exactly the message at position `i` flipped
from unheard to heard; that message is a received one. -/
def heardFlipAt (old new : List Message) (i : Nat) : Prop :=
  i < old.length ∧
  (old.getD i default).direction = Direction.received ∧
  (old.getD i default).heard = false ∧
  new = old.set i { old.getD i default with heard := true }

/-- Per-transition discipline of one friend's conversation history:
it is unchanged, or a message obeying the creation rule was prepended,
or the message at the active playback cursor was flipped to heard as
its playback began (possibly after such a prepend in the same
transition). -/
def heardDiscipline (st r : VM) (g : String) : Prop :=
  r.messages g = st.messages g ∨
  (∃ m, insertRuleOK m ∧ r.messages g = m :: st.messages g) ∨
  (∃ i, heardFlipAt (st.messages g) (r.messages g) i ∧
    r.playbackFriend = some g ∧ r.playbackIndex = (i : Int) ∧ r.state = SState.playing) ∨
  (∃ m i, insertRuleOK m ∧ heardFlipAt (m :: st.messages g) (r.messages g) i ∧
    r.playbackFriend = some g ∧ r.playbackIndex = (i : Int) ∧ r.state = SState.playing)

/-! ### Concrete instances used by witnesses and counterexamples -/

/-- Environment for the concrete scenarios: every peer online, every
audio file present. -/
def exEnv : Env :=
  { peerStatus := fun _ => PeerStatus.online
    fileExists := fun _ => true
    freshId := "sid-1"
    now := 7 }

/-- A received, not-yet-heard message from friend `"a"`. -/
def exRecv : Message :=
  { id := "m2", file := "m2.wav", timestamp := 5, heard := false
    direction := Direction.received }

/-- Network payload corresponding to `exRecv`. -/
def exMd : MsgData := { id := "m2", file := "m2.wav", timestamp := 5 }

/-- Conversation histories: friend `"a"` has the single unheard
message `exRecv`. -/
def exMsgs : String → List Message := fun g => if g = "a" then [exRecv] else []

/-- Idle coordinator with friend `"a"` selected and one unheard
received message from `"a"`. -/
def exIdle : VM := { initVM (some "a") with messages := exMsgs }

/-- The coordinator mid-playback of `exRecv` (cursor on it), with the
message still unheard: used to show the finish event does not flip the
flag. -/
def exPlaying : VM :=
  { exIdle with
      state := SState.playing
      playbackFriend := some "a"
      playbackIndex := 0 }

/-- Recording for `"a"` in conversation mode while the message `exMd`
from `"a"` itself is pending autoplay. -/
def exRecSame : VM :=
  { exIdle with
      state := SState.recording
      conversationMode := true
      pendingAutoplay := some ("a", exMd) }

/-- Recording for `"b"` in conversation mode while the message `exMd`
from `"a"` is pending autoplay. -/
def exRecOther : VM :=
  { exIdle with
      selectedFriend := some "b"
      state := SState.recording
      conversationMode := true
      pendingAutoplay := some ("a", exMd) }

/-- Idle coordinator in conversation mode with `"b"` selected and no
stored messages. -/
def exIdleConv : VM := { initVM (some "b") with conversationMode := true }

/-- A second received message from `"a"`, already heard. -/
def exHeard : Message :=
  { id := "m1", file := "m1.wav", timestamp := 4, heard := true
    direction := Direction.received }

/-- Playing `"a"`'s two-message conversation with the cursor on the
oldest message: one more advance must wrap to index 0. -/
def exPlayingTwo : VM :=
  { exIdle with
      messages := fun g => if g = "a" then [exHeard, exRecv] else []
      state := SState.playing
      playbackFriend := some "a"
      playbackIndex := 1 }

end VoiceMessenger

namespace RelayHub

/-- Empty hub (fresh server process). -/
def hub0 : Hub := { connected := [], deviceInfo := fun _ => none, registry := fun _ => none }

/-- Registration data of device `A`, declaring `B` as a friend. -/
def regA : RegData := { deviceId := some "A", deviceName := "Alice", friends := ["B"] }

/-- Registration data of device `B`, declaring `A` as a friend. -/
def regB : RegData := { deviceId := some "B", deviceName := "Bob", friends := ["A"] }

/-- Hub state after `A` registered on the empty hub. -/
def hubA : Hub := (handle_register "t1" hub0 regA).1

/-- Hub with devices `"s"` and `"r"` connected, where `"s"` declares
`"r"` as a friend. -/
def hubSR : Hub :=
  { connected := ["s", "r"]
    deviceInfo := fun g =>
      if g = "s" then some { name := "S", friends := ["r"], lastSeen := "t0" }
      else if g = "r" then some { name := "R", friends := [], lastSeen := "t0" }
      else none
    registry := fun _ => none }

end RelayHub

namespace Transport

/-- Concrete transport configuration: one friend `"a"` whose device id
is `"adev"`. -/
def exCfg : NetCfg :=
  { deviceId := "dev"
    deviceName := "Me"
    friendDeviceId := fun f => if f = "a" then some (some "adev") else none
    friendIds := ["a"]
    mockMode := false }

/-- Concrete nondeterministic inputs for a send. -/
def exNetEnv : NetEnv :=
  { freshId := "mid-1", now := 9, readFile := fun _ => "BYTES", b64 := fun s => s }

/-- Transport state just after the socket connected, before any inbound
message (in particular before the `registered` confirmation) was
processed. -/
def exConnected : WSN := (on_connect exCfg initWSN).1

end Transport

namespace VoiceMessenger

/-! ## Helper lemmas -/

theorem unheard_filter_pos_iff (l : List Message) :
    0 < (l.filter (fun msg => ¬ msg.heard ∧ msg.direction = Direction.received)).length ↔
    l.any (fun msg => msg.direction = Direction.received ∧ msg.heard = false) = true := by
  have h2 : (fun (msg : Message) => decide (¬ msg.heard = true ∧ msg.direction = Direction.received)) =
      (fun (msg : Message) => decide (msg.direction = Direction.received ∧ msg.heard = false)) := by
    funext m
    apply decide_eq_decide.mpr
    constructor
    · intro hm
      exact ⟨hm.2, by simpa using hm.1⟩
    · intro hm
      exact ⟨by simpa using hm.2, hm.1⟩
  rw [h2, List.length_pos, Ne, List.filter_eq_nil_iff]
  push_neg
  simp [List.any_eq_true]

/-! ## Claim theorems -/

/-- C6: the per-friend RGB LED command is a pure function of the
coordinator state computed by exactly the six-priority chain of the
specification, first matching condition winning: (1) recording for
that friend → pulsing alert (red); (2) that friend recording for us →
attention animation (rainbow); (3) an unheard received message →
pulsing new-message color (green); (4) sent-status → solid
awaiting-heard color (blue); (5) online → solid green; (6) off.
`update_rgb_led` is translated from the source, `ledSpec` from the
specification's sentence; they agree on every state. -/
theorem c6_led_priority (lenv : LedEnv) (env : Env) (st : VM) (friendId : String) :
    update_rgb_led lenv env st friendId = ledSpec lenv env st friendId := by
  unfold update_rgb_led ledSpec
  cases lenv.ledIndex friendId with
  | none => rfl
  | some i =>
    simp only [Option.map_some', unheard_filter_pos_iff, apply_ite Option.some]

/-- C8: a heard-acknowledgment for friend `f` clears `SentStatus[f]`
unconditionally: the resulting flag is false whatever the prior state,
and the transition does not depend on the acknowledged message id at
all. -/
theorem c8_heard_ack_unconditional (env : Env) (st : VM) (f mid mid' : String) :
    (step env (Event.messageHeardAck f mid) st).1.messageSentStatus f = false ∧
    step env (Event.messageHeardAck f mid) st = step env (Event.messageHeardAck f mid') st := by
  constructor
  · simp [step, handle_message_heard, updF]
  · rfl

end VoiceMessenger

namespace RelayHub

theorem mem_connInsert (l : List String) (d x : String) :
    x ∈ connInsert l d ↔ x ∈ l ∨ x = d := by
  unfold connInsert
  by_cases h : d ∈ l
  · rw [if_pos h]
    constructor
    · exact Or.inl
    · rintro (hx | rfl)
      · exact hx
      · exact h
  · rw [if_neg h]
    simp

/-- C4: a `voice_message` for a recipient that is not in the connected
table yields exactly one `recipient_offline` reply to the (connected)
sender, carrying the original message id — nothing is sent to the
recipient and nothing is stored; for a connected recipient the payload
is forwarded verbatim (same message id, audio bytes and timestamp) and
the sender gets a `message_delivered` confirmation.  `message_heard`
and recording-status messages for a disconnected counterpart are
silently dropped (no effects at all, in particular no offline
indication); for a connected counterpart they are forwarded. -/
theorem c4_forwarding_and_offline (hub : Hub) (rid mid audio sid : String)
    (ts : Option Nat) (s : String) (listener : Option String) (kind : RecKind)
    (hrid : rid ≠ "") (hmid : mid ≠ "") (haudio : audio ≠ "") (hsid : sid ≠ "")
    (hs : s ∈ hub.connected) :
    (rid ∉ hub.connected →
      handle_voice_message hub
          { recipientId := some rid, messageId := some mid,
            audioData := some audio, timestamp := ts } (some s) =
        [HubEff.send s (SMsg.recipientOffline rid mid)]) ∧
    (rid ∈ hub.connected →
      handle_voice_message hub
          { recipientId := some rid, messageId := some mid,
            audioData := some audio, timestamp := ts } (some s) =
        [HubEff.send rid (SMsg.voiceMessage (some s) mid audio ts),
         HubEff.send s (SMsg.messageDelivered rid mid)]) ∧
    (sid ∉ hub.connected →
      handle_message_heard hub { senderId := some sid, messageId := some mid } listener = []) ∧
    (sid ∈ hub.connected →
      handle_message_heard hub { senderId := some sid, messageId := some mid } listener =
        [HubEff.send sid (SMsg.messageHeard listener mid)]) ∧
    (rid ∉ hub.connected →
      handle_recording_status hub kind (some rid) (some s) = []) ∧
    (rid ∈ hub.connected →
      handle_recording_status hub kind (some rid) (some s) =
        [HubEff.send rid (SMsg.recordingStatus kind (some s))]) := by
  refine ⟨?_, ?_, ?_, ?_, ?_, ?_⟩ <;> intro h <;>
    simp [handle_voice_message, handle_message_heard, handle_recording_status,
      blank, String.isEmpty_iff, hrid, hmid, haudio, hsid, h, hs]

theorem c4_forwarding_and_offline_witness :
    "s" ∈ hubSR.connected ∧
    handle_voice_message hubSR
        { recipientId := some "r", messageId := some "mid7",
          audioData := some "AUDIO", timestamp := some 3 } (some "s") =
      [HubEff.send "r" (SMsg.voiceMessage (some "s") "mid7" "AUDIO" (some 3)),
       HubEff.send "s" (SMsg.messageDelivered "r" "mid7")] :=
  ⟨by decide,
   (c4_forwarding_and_offline hubSR "r" "mid7" "AUDIO" "x" (some 3) "s" none
      RecKind.started (by decide) (by decide) (by decide) (by decide) (by decide)).2.1
     (by decide)⟩

end RelayHub

namespace RelayHub

/-- C5: handling a registration with a non-blank device id records the
device in the connected table, updates the in-memory info and the
durable registry (persisting it), replies to the registering
connection first with a `registered` confirmation, then — when
non-empty — with exactly the subset of the declared friends currently
connected, and finally sends a `friend_online` notification to exactly
the other connected devices whose declared friend list contains the
registrant (directional; mutual listing not required).  Instantiated
at scenario F (devices `A` and `B` listing each other, `A` then `B`
registering) by the witness. -/
theorem c5_registration (now : String) (hub : Hub) (data : RegData) (d : String)
    (hd : data.deviceId = some d) (hne : d ≠ "") :
    (handle_register now hub data).2.2 = some d ∧
    (handle_register now hub data).1.connected = connInsert hub.connected d ∧
    d ∈ (handle_register now hub data).1.connected ∧
    (handle_register now hub data).1.deviceInfo d =
      some { name := data.deviceName, friends := data.friends, lastSeen := now } ∧
    (handle_register now hub data).1.registry d =
      some { name := data.deviceName
             registeredAt :=
               match hub.registry d with
               | some entry => entry.registeredAt
               | none => now
             lastSeen := now } ∧
    (∃ notifs,
      (handle_register now hub data).2.1 =
        [HubEff.saveRegistry, HubEff.reply (SMsg.registered d now)] ++
          (if (data.friends.filter (fun fid => fid ∈ connInsert hub.connected d)).isEmpty
           then []
           else [HubEff.reply (SMsg.friendsOnline
             (data.friends.filter (fun fid => fid ∈ connInsert hub.connected d)))]) ++
          notifs ∧
      (∀ e ∈ notifs, ∃ o, e = HubEff.send o (SMsg.friendOnline d)) ∧
      (∀ o, HubEff.send o (SMsg.friendOnline d) ∈ notifs ↔
        (o ∈ hub.connected ∧ o ≠ d ∧
          d ∈ ((hub.deviceInfo o).map DevInfo.friends).getD []))) := by
  have hne' : d.isEmpty = false := by
    cases hh : d.isEmpty
    · rfl
    · exact absurd ((String.isEmpty_iff d).mp hh) hne
  refine ⟨?_, ?_, ?_, ?_, ?_, ?_⟩
  · simp [handle_register, hd, hne']
  · simp [handle_register, hd, hne']
  · simp [handle_register, hd, hne', mem_connInsert]
  · simp [handle_register, hd, hne', VoiceMessenger.updF]
  · cases hr : hub.registry d <;> simp [handle_register, hd, hne', VoiceMessenger.updF, hr]
  · refine ⟨((connInsert hub.connected d).filter (fun other =>
        other ≠ d ∧ d ∈ ((((VoiceMessenger.updF hub.deviceInfo d
          (some { name := data.deviceName, friends := data.friends, lastSeen := now })) other).map
            DevInfo.friends).getD []))).map
      (fun other => HubEff.send other (SMsg.friendOnline d)), ?_, ?_, ?_⟩
    · by_cases hemp :
          (data.friends.filter (fun fid => fid ∈ connInsert hub.connected d)).isEmpty <;>
        simp [handle_register, hd, hne', hemp]
    · intro e he
      obtain ⟨o, _, rfl⟩ := List.mem_map.mp he
      exact ⟨o, rfl⟩
    · intro o
      constructor
      · intro ho
        obtain ⟨o', ho', heq⟩ := List.mem_map.mp ho
        injection heq with h1 h2
        rw [h1] at ho'
        have hf := List.mem_filter.mp ho'
        have hcond := of_decide_eq_true hf.2
        have hod : o ≠ d := hcond.1
        refine ⟨?_, hod, ?_⟩
        · rcases (mem_connInsert _ _ _).mp hf.1 with hmem | rfl
          · exact hmem
          · exact absurd rfl hod
        · have := hcond.2
          rwa [VoiceMessenger.updF, if_neg hod] at this
      · rintro ⟨hmem, hod, hfr⟩
        refine List.mem_map.mpr
          ⟨o, List.mem_filter.mpr ⟨(mem_connInsert _ _ _).mpr (Or.inl hmem), ?_⟩, rfl⟩
        refine decide_eq_true ⟨hod, ?_⟩
        rwa [VoiceMessenger.updF, if_neg hod]

theorem c5_registration_witness :
    regB.deviceId = some "B" ∧ ("B" : String) ≠ "" ∧
    (handle_register "t2" hubA regB).2.2 = some "B" ∧
    HubEff.reply (SMsg.friendsOnline ["A"]) ∈ (handle_register "t2" hubA regB).2.1 ∧
    HubEff.send "A" (SMsg.friendOnline "B") ∈ (handle_register "t2" hubA regB).2.1 :=
  ⟨by decide, by decide,
   (c5_registration "t2" hubA regB "B" (by decide) (by decide)).1,
   by decide, by decide⟩

end RelayHub

namespace Transport

/-- C9 counterexample: the transport gates sends on the socket flag
only, never on the `registered` confirmation.  Immediately after
`on_connect` (so before any `registered` confirmation has been
processed: `sawRegistered = false`) a send is transmitted normally,
not surfaced as an error; and a send attempted while disconnected is a
plain drop whose only state change is the message-id bookkeeping —
nothing is queued and nothing is reported back to the coordinator. -/
theorem c9_counterexample :
    exConnected.connected = true ∧
    exConnected.sawRegistered = false ∧
    (send_message exCfg exNetEnv exConnected "a" "clip.wav").2 =
      SendResult.transmitted (WireMsg.voiceMessage "adev" "mid-1" "BYTES" 9) ∧
    (send_message exCfg exNetEnv initWSN "a" "clip.wav").2 = SendResult.notConnectedDrop ∧
    (send_message exCfg exNetEnv initWSN "a" "clip.wav").1 =
      { initWSN with sentMessages := ["mid-1"] } := by
  decide

/-- C9 (amended): on every successful connection the handler's first
and only outbound traffic before entering its read loop is the
`register` message; the transport never queues outbound messages: a
send attempted while the socket is down is dropped (with only the
message-id bookkeeping as a state change, and only a logged warning —
no error reaches the coordinator), and a send attempted while the
socket is up is transmitted regardless of whether the `registered`
confirmation has arrived (the transport keeps no such flag). -/
theorem c9_registration_send_discipline (cfg : NetCfg) (env : NetEnv) (st : WSN)
    (fid file tgt : String)
    (hcfg : cfg.friendDeviceId fid = some (some tgt)) (hmock : cfg.mockMode = false) :
    (on_connect cfg st).2 = [registerMsg cfg] ∧
    (st.connected = false →
      send_message cfg env st fid file =
        ({ st with sentMessages := st.sentMessages ++ [env.freshId] },
         SendResult.notConnectedDrop)) ∧
    (st.connected = true → ∀ b : Bool,
      send_message cfg env { st with sawRegistered := b } fid file =
        ({ st with sawRegistered := b, sentMessages := st.sentMessages ++ [env.freshId] },
         SendResult.transmitted
           (WireMsg.voiceMessage tgt env.freshId (env.b64 (env.readFile file)) env.now))) := by
  refine ⟨rfl, ?_, ?_⟩
  · intro h
    simp [send_message, hcfg, hmock, h]
  · intro h b
    simp [send_message, hcfg, hmock, h]

theorem c9_registration_send_discipline_witness :
    exCfg.friendDeviceId "a" = some (some "adev") ∧ exCfg.mockMode = false ∧
    send_message exCfg exNetEnv initWSN "a" "clip.wav" =
      ({ initWSN with sentMessages := initWSN.sentMessages ++ [exNetEnv.freshId] },
       SendResult.notConnectedDrop) :=
  ⟨by decide, by decide,
   (c9_registration_send_discipline exCfg exNetEnv initWSN "a" "clip.wav" "adev"
      (by decide) (by decide)).2.1 (by decide)⟩

end Transport

namespace VoiceMessenger

/-- C1 counterexample: the heard flag of a received message flips when
its playback *starts*, not when it finishes.  Pressing the selected
friend's button in `Idle` (a playback-start operation) already flips
the flag while the coordinator is still `Playing` it (no finish event
has occurred), and the finish event applied to a `Playing` state whose
cursor message is unheard flips nothing. -/
theorem c1_counterexample :
    (exIdle.messages "a").getD 0 default = exRecv ∧ exRecv.heard = false ∧
    (step exEnv (Event.friendButton "a") exIdle).1.state = SState.playing ∧
    ((step exEnv (Event.friendButton "a") exIdle).1.messages "a").getD 0 default =
      { exRecv with heard := true } ∧
    (step exEnv Event.playbackFinished exPlaying).1.messages "a" = [exRecv] := by
  decide

/-- C3: on `MessageArrived(f, msg)` a received message (created with
`heard = false`) is prepended at index 0 of `f`'s sequence in every
state.  Without conversation mode nothing else happens (in particular
no timeout reset).  With conversation mode on, the conversation
timeout is always reset and: in `Recording` the arrival becomes the
pending autoplay, overwriting any previous one (last arrival wins); in
`Playing` the session state is otherwise unchanged; in `Idle` the
sender is selected and the coordinator transitions to `Playing` with
the cursor at the arrived message (index 0), whose heard flag is
flipped by that immediately-starting playback. -/
theorem c3_message_arrival (env : Env) (st : VM) (f : String) (md : MsgData)
    (hfile : env.fileExists md.file = true) :
    (¬ st.conversationMode = true →
      step env (Event.messageArrived f md) st =
        ({ st with messages := updF st.messages f
                      ({ id := md.id, file := md.file, timestamp := md.timestamp,
                         heard := false, direction := Direction.received } ::
                        st.messages f) }, [])) ∧
    (st.conversationMode = true →
      Effect.resetConvTimeout ∈ (step env (Event.messageArrived f md) st).2 ∧
      (st.state = SState.recording →
        step env (Event.messageArrived f md) st =
          ({ st with
              messages := updF st.messages f
                            ({ id := md.id, file := md.file, timestamp := md.timestamp,
                               heard := false, direction := Direction.received } ::
                              st.messages f),
              pendingAutoplay := some (f, md) }, [Effect.resetConvTimeout])) ∧
      (st.state = SState.playing →
        step env (Event.messageArrived f md) st =
          ({ st with messages := updF st.messages f
                        ({ id := md.id, file := md.file, timestamp := md.timestamp,
                           heard := false, direction := Direction.received } ::
                          st.messages f) },
           [Effect.resetConvTimeout])) ∧
      (st.state = SState.idle →
        (step env (Event.messageArrived f md) st).1.selectedFriend = some f ∧
        (step env (Event.messageArrived f md) st).1.state = SState.playing ∧
        (step env (Event.messageArrived f md) st).1.playbackFriend = some f ∧
        (step env (Event.messageArrived f md) st).1.playbackIndex = 0 ∧
        (step env (Event.messageArrived f md) st).1.messages f =
          { id := md.id, file := md.file, timestamp := md.timestamp,
            heard := true, direction := Direction.received } :: st.messages f ∧
        Effect.playAudio md.file ∈ (step env (Event.messageArrived f md) st).2)) := by
  constructor
  · intro h
    simp [step, handle_message_received, h]
  · intro hconv
    refine ⟨?_, ?_, ?_, ?_⟩
    · cases hst : st.state <;>
        simp [step, handle_message_received, auto_play_message, select_friend,
          play_current_message, hconv, hst]
    · intro hst
      simp [step, handle_message_received, hconv, hst]
    · intro hst
      simp [step, handle_message_received, hconv, hst]
    · intro hst
      have hlen : ¬ (((st.messages f).length : Int) + 1 ≤ 0) := by omega
      by_cases hsel : st.selectedFriend = some f <;>
        simp [step, handle_message_received, auto_play_message, select_friend,
          play_current_message, stop_playback, on_playback_finished,
          updF, hconv, hst, hsel, hfile, hlen]

end VoiceMessenger

namespace VoiceMessenger

theorem c3_message_arrival_witness :
    exEnv.fileExists exMd.file = true ∧ exIdleConv.conversationMode = true ∧
    exIdleConv.state = SState.idle ∧
    ((step exEnv (Event.messageArrived "a" exMd) exIdleConv).1.selectedFriend = some "a" ∧
     (step exEnv (Event.messageArrived "a" exMd) exIdleConv).1.state = SState.playing ∧
     (step exEnv (Event.messageArrived "a" exMd) exIdleConv).1.playbackFriend = some "a" ∧
     (step exEnv (Event.messageArrived "a" exMd) exIdleConv).1.playbackIndex = 0 ∧
     (step exEnv (Event.messageArrived "a" exMd) exIdleConv).1.messages "a" =
       { id := "m2", file := "m2.wav", timestamp := 5, heard := true,
         direction := Direction.received } :: exIdleConv.messages "a" ∧
     Effect.playAudio "m2.wav" ∈ (step exEnv (Event.messageArrived "a" exMd) exIdleConv).2) :=
  ⟨by decide, by decide, by decide,
   ((c3_message_arrival exEnv exIdleConv "a" exMd (by decide)).2 (by decide)).2.2.2 (by decide)⟩

/-- C7: while `Playing` friend `f`'s conversation of length `n` at
index `i`, pressing `f`'s button again advances the cursor to
`(i + 1) mod n` — `i + 1` when that is still in range, wrapping to 0
past the end — and playback continues on the same friend; pressing a
different friend's button stops playback (back to `Idle`, cursor
reset) and selects that friend. -/
theorem c7_playback_navigation (env : Env) (st : VM) (f g : String) (i : Int)
    (hplay : st.state = SState.playing) (hsel : st.selectedFriend = some f)
    (hpf : st.playbackFriend = some f) (hidx : st.playbackIndex = i)
    (h0 : 0 ≤ i) (hlt : i < ((st.messages f).length : Int))
    (hfile : env.fileExists
      (((st.messages f).getD ((i + 1) % ((st.messages f).length : Int)).toNat default).file) =
      true)
    (hg : g ≠ f) :
    ((step env (Event.friendButton f) st).1.playbackIndex =
      (i + 1) % ((st.messages f).length : Int) ∧
     (step env (Event.friendButton f) st).1.playbackFriend = some f ∧
     (step env (Event.friendButton f) st).1.selectedFriend = some f ∧
     (step env (Event.friendButton f) st).1.state = SState.playing ∧
     Effect.playAudio
         (((st.messages f).getD ((i + 1) % ((st.messages f).length : Int)).toNat default).file) ∈
       (step env (Event.friendButton f) st).2) ∧
    ((step env (Event.friendButton g) st).1.state = SState.idle ∧
     (step env (Event.friendButton g) st).1.playbackFriend = none ∧
     (step env (Event.friendButton g) st).1.playbackIndex = -1 ∧
     (step env (Event.friendButton g) st).1.selectedFriend = some g) := by
  have hn : 0 < ((st.messages f).length : Int) := lt_of_le_of_lt h0 hlt
  have hkey : (if ((st.messages f).length : Int) ≤ i + 1 then 0 else i + 1) =
      (i + 1) % ((st.messages f).length : Int) := by
    by_cases hle : ((st.messages f).length : Int) ≤ i + 1
    · have heq : i + 1 = ((st.messages f).length : Int) := le_antisymm (by omega) hle
      rw [if_pos hle, heq, Int.emod_self]
    · rw [if_neg hle, Int.emod_eq_of_lt (by omega) (by omega)]
  have hmod0 : 0 ≤ (i + 1) % ((st.messages f).length : Int) :=
    Int.emod_nonneg _ (by omega)
  have hmodlt : (i + 1) % ((st.messages f).length : Int) < ((st.messages f).length : Int) :=
    Int.emod_lt_of_pos _ hn
  constructor
  · have hne : ¬ (st.messages f).isEmpty = true := by
      rw [List.isEmpty_iff]
      intro hnil
      rw [hnil] at hlt
      simp at hlt
      omega
    have hfile' : env.fileExists
        (((st.messages f)[((i + 1) % ((st.messages f).length : Int)).toNat]?).getD
          default).file = true := by
      simpa [List.getD_eq_getElem?_getD] using hfile
    by_cases hmark :
        ((((st.messages f)[((i + 1) % ((st.messages f).length : Int)).toNat]?).getD
            default).direction = Direction.received ∧
          (((st.messages f)[((i + 1) % ((st.messages f).length : Int)).toNat]?).getD
            default).heard = false) <;>
      simp [step, handle_friend_button, play_previous_message, play_current_message,
        stop_playback, on_playback_finished, updF, hplay, hsel, hpf, hidx, hkey,
        hne, not_lt.mpr hmod0, not_le.mpr hmodlt, hfile', hmark,
        List.getD_eq_getElem?_getD]
  · have hsg : ¬ st.selectedFriend = some g := by
      rw [hsel]
      intro hc
      exact hg (Option.some_inj.mp hc).symm
    simp [step, handle_friend_button, stop_playback, select_friend, hplay, hsg]

end VoiceMessenger

namespace VoiceMessenger

theorem stop_playback_messages (st : VM) : (stop_playback st).1.messages = st.messages := by
  simp only [stop_playback]
  split <;> rfl

theorem on_playback_finished_messages (st : VM) :
    (on_playback_finished st).1.messages = st.messages := by
  unfold on_playback_finished
  split
  · rfl
  · exact stop_playback_messages st

/-- What one `_play_current_message` call can do to a friend's
conversation history: leave it unchanged, or — exactly when that
friend is the active playback cursor, playback starts and the cursor
message is a received unheard one — flip that single message to heard. -/
theorem play_current_messages (env : Env) (st : VM) (g : String) :
    (play_current_message env st).1.messages g = st.messages g ∨
    (∃ i : Nat,
      heardFlipAt (st.messages g) ((play_current_message env st).1.messages g) i ∧
      st.playbackFriend = some g ∧ st.playbackIndex = (i : Int) ∧
      (play_current_message env st).1.playbackFriend = some g ∧
      (play_current_message env st).1.playbackIndex = (i : Int) ∧
      (play_current_message env st).1.state = SState.playing) := by
  unfold play_current_message
  rcases hpf : st.playbackFriend with _ | pf
  · exact Or.inl rfl
  · dsimp only
    by_cases hguard : ((st.messages pf).isEmpty = true ∨ st.playbackIndex < 0 ∨
        ((st.messages pf).length : Int) ≤ st.playbackIndex)
    · rw [if_pos hguard]
      exact Or.inl (congrFun (stop_playback_messages st) g)
    · rw [if_neg hguard]
      push_neg at hguard
      obtain ⟨hne, hge, hlt⟩ := hguard
      by_cases hfe : env.fileExists ((st.messages pf).getD st.playbackIndex.toNat default).file =
          true
      · rw [if_neg (by simpa using hfe)]
        by_cases hmark : (((st.messages pf).getD st.playbackIndex.toNat default).direction =
              Direction.received ∧
            ((st.messages pf).getD st.playbackIndex.toNat default).heard = false)
        · rw [if_pos hmark]
          by_cases hg : pf = g
          · subst hg
            refine Or.inr ⟨st.playbackIndex.toNat, ⟨?_, hmark.1, hmark.2, ?_⟩, rfl,
              (Int.toNat_of_nonneg hge).symm, ?_, ?_, ?_⟩
            · omega
            · cases hst : st.state <;> simp [hst, updF]
            · cases hst : st.state <;> simp [hst, hpf]
            · cases hst : st.state <;> simp [hst, Int.toNat_of_nonneg hge]
            · cases hst : st.state <;> simp [hst]
          · have hg2 : g ≠ pf := fun hc => hg hc.symm
            refine Or.inl ?_
            cases hst : st.state <;> simp [hst, updF, hg2]
        · rw [if_neg hmark]
          cases hst : st.state <;> exact Or.inl rfl
      · rw [if_pos (by simpa using hfe)]
        refine Or.inl ?_
        cases hst : st.state <;>
          simpa using congrFun (on_playback_finished_messages _) g

end VoiceMessenger

namespace VoiceMessenger

theorem cancel_recording_messages (st : VM) :
    (cancel_recording st).1.messages = st.messages := by
  unfold cancel_recording
  split <;> rfl

theorem heardDiscipline_of_eq {st r : VM} {g : String} (h : r.messages g = st.messages g) :
    heardDiscipline st r g :=
  Or.inl h

theorem heardDiscipline_of_cons {st r : VM} {g : String} (m : Message)
    (hrule : insertRuleOK m) (h : r.messages g = m :: st.messages g) :
    heardDiscipline st r g :=
  Or.inr (Or.inl ⟨m, hrule, h⟩)

theorem heardDiscipline_after_play (env : Env) (st st1 : VM) (g : String)
    (hm : st1.messages g = st.messages g) :
    heardDiscipline st (play_current_message env st1).1 g := by
  rcases play_current_messages env st1 g with h | ⟨i, hflip, _, _, h4, h5, h6⟩
  · exact Or.inl (by rw [h, hm])
  · rw [hm] at hflip
    exact Or.inr (Or.inr (Or.inl ⟨i, hflip, h4, h5, h6⟩))

theorem heardDiscipline_after_play_cons (env : Env) (st st1 : VM) (g : String) (m : Message)
    (hrule : insertRuleOK m) (hm : st1.messages g = m :: st.messages g) :
    heardDiscipline st (play_current_message env st1).1 g := by
  rcases play_current_messages env st1 g with h | ⟨i, hflip, _, _, h4, h5, h6⟩
  · exact Or.inr (Or.inl ⟨m, hrule, by rw [h, hm]⟩)
  · rw [hm] at hflip
    exact Or.inr (Or.inr (Or.inr ⟨m, i, hrule, hflip, h4, h5, h6⟩))

theorem heardDiscipline_after_autoplay (env : Env) (st st1 : VM) (fid g : String)
    (hm : st1.messages g = st.messages g) :
    heardDiscipline st (auto_play_message env st1 fid).1 g := by
  unfold auto_play_message
  split
  · exact Or.inl hm
  · by_cases hsel : st1.selectedFriend ≠ some fid
    · rw [if_pos hsel]
      exact heardDiscipline_after_play env st _ g hm
    · rw [if_neg hsel]
      exact heardDiscipline_after_play env st _ g hm

theorem heardDiscipline_after_autoplay_cons (env : Env) (st st1 : VM) (fid g : String)
    (m : Message) (hrule : insertRuleOK m) (hm : st1.messages g = m :: st.messages g) :
    heardDiscipline st (auto_play_message env st1 fid).1 g := by
  unfold auto_play_message
  split
  · exact Or.inr (Or.inl ⟨m, hrule, hm⟩)
  · by_cases hsel : st1.selectedFriend ≠ some fid
    · rw [if_pos hsel]
      exact heardDiscipline_after_play_cons env st _ g m hrule hm
    · rw [if_neg hsel]
      exact heardDiscipline_after_play_cons env st _ g m hrule hm

end VoiceMessenger

namespace VoiceMessenger

/-- C1 (amended): across every coordinator transition, each friend's
conversation history obeys the heard-flag discipline: it is unchanged,
or a message is prepended at index 0 obeying the creation rule (`Sent`
created with `heard = true`, `Received` created with `heard = false`),
or the single message at the active playback cursor flips from unheard
to heard at the moment its playback begins (possibly combined with
such a prepend in the same transition, as when an arrival in
conversation mode starts playing immediately); no other operation
changes a heard flag. -/
theorem c1_heard_discipline (env : Env) (ev : Event) (st : VM) (g : String) :
    heardDiscipline st (step env ev st).1 g := by
  cases ev with
  | friendButton f =>
    cases hst : st.state with
    | recording =>
      exact Or.inl (by simp [step, handle_friend_button, hst, cancel_recording_messages])
    | playing =>
      by_cases hsel : st.selectedFriend = some f
      · simp only [step, handle_friend_button, hst, if_pos hsel]
        unfold play_previous_message
        cases hpf : st.playbackFriend with
        | none => exact Or.inl rfl
        | some pf =>
          dsimp only
          exact heardDiscipline_after_play env st _ g rfl
      · simp only [step, handle_friend_button, hst, if_neg hsel]
        exact Or.inl (by simp [select_friend, stop_playback_messages])
    | idle =>
      by_cases hsel : st.selectedFriend = some f
      · simp only [step, handle_friend_button, hst, if_pos hsel]
        unfold start_playback
        split
        · exact Or.inl rfl
        · exact heardDiscipline_after_play env st _ g rfl
      · simp only [step, handle_friend_button, hst, if_neg hsel]
        exact Or.inl rfl
  | recordButton capture =>
    cases hst : st.state with
    | playing =>
      exact Or.inl (by simp [step, handle_record_button, hst, stop_playback_messages])
    | idle =>
      cases hsel : st.selectedFriend with
      | none => exact Or.inl (by simp [step, handle_record_button, hst, hsel])
      | some f =>
        by_cases hon : env.peerStatus f = PeerStatus.online <;>
          exact Or.inl (by simp [step, handle_record_button, start_recording, hst, hsel, hon])
    | recording =>
      simp only [step, handle_record_button, hst]
      unfold stop_recording_and_send
      rw [if_neg (by simp [hst])]
      cases hsel : st.selectedFriend with
      | none => exact Or.inl rfl
      | some f =>
        dsimp only
        cases capture with
        | none =>
          cases hp : st.pendingAutoplay with
          | none => exact Or.inl rfl
          | some pr =>
            obtain ⟨pf, pmd⟩ := pr
            exact heardDiscipline_after_autoplay env st _ pf g rfl
        | some file =>
          cases hp : st.pendingAutoplay with
          | none =>
            by_cases hgf : g = f
            · subst hgf
              exact heardDiscipline_of_cons
                { id := env.freshId, file := file, timestamp := env.now,
                  heard := true, direction := Direction.sent }
                (Or.inl ⟨rfl, rfl⟩) (by simp [updF])
            · exact Or.inl (by simp [updF, hgf])
          | some pr =>
            obtain ⟨pf, pmd⟩ := pr
            by_cases hgf : g = f
            · subst hgf
              exact heardDiscipline_after_autoplay_cons env st _ pf g
                { id := env.freshId, file := file, timestamp := env.now,
                  heard := true, direction := Direction.sent }
                (Or.inl ⟨rfl, rfl⟩) (by simp [updF])
            · exact heardDiscipline_after_autoplay env st _ pf g (by simp [updF, hgf])
  | dialogButton =>
    refine Or.inl ?_
    simp only [step, handle_dialog_button]
    cases hst : st.state <;>
      simp [hst, stop_playback_messages, cancel_recording_messages] <;>
      split <;>
      simp [stop_playback_messages, cancel_recording_messages]
  | messageArrived f md =>
    simp only [step, handle_message_received]
    by_cases hconv : st.conversationMode = true
    · rw [if_pos hconv]
      cases hst : st.state with
      | recording =>
        rw [if_pos rfl]
        by_cases hgf : g = f
        · subst hgf
          exact heardDiscipline_of_cons
            { id := md.id, file := md.file, timestamp := md.timestamp,
              heard := false, direction := Direction.received }
            (Or.inr ⟨rfl, rfl⟩) (by simp [updF])
        · exact Or.inl (by simp [updF, hgf])
      | idle =>
        rw [if_neg (by decide), if_pos rfl]
        by_cases hgf : g = f
        · subst hgf
          exact heardDiscipline_after_autoplay_cons env st _ g g
            { id := md.id, file := md.file, timestamp := md.timestamp,
              heard := false, direction := Direction.received }
            (Or.inr ⟨rfl, rfl⟩) (by simp [updF])
        · exact heardDiscipline_after_autoplay env st _ f g (by simp [updF, hgf])
      | playing =>
        rw [if_neg (by decide), if_neg (by decide)]
        by_cases hgf : g = f
        · subst hgf
          exact heardDiscipline_of_cons
            { id := md.id, file := md.file, timestamp := md.timestamp,
              heard := false, direction := Direction.received }
            (Or.inr ⟨rfl, rfl⟩) (by simp [updF])
        · exact Or.inl (by simp [updF, hgf])
    · rw [if_neg hconv]
      by_cases hgf : g = f
      · subst hgf
        exact heardDiscipline_of_cons
          { id := md.id, file := md.file, timestamp := md.timestamp,
            heard := false, direction := Direction.received }
          (Or.inr ⟨rfl, rfl⟩) (by simp [updF])
      · exact Or.inl (by simp [updF, hgf])
  | messageHeardAck f mid => exact Or.inl rfl
  | peerRecordingStarted f => exact Or.inl rfl
  | peerRecordingStopped f => exact Or.inl rfl
  | playbackFinished =>
    exact Or.inl (by simp [step, on_playback_finished_messages])
  | conversationTimeout => exact Or.inl rfl

end VoiceMessenger

namespace VoiceMessenger

theorem stop_playback_frame (st : VM) :
    (stop_playback st).1.messageSentStatus = st.messageSentStatus ∧
    (stop_playback st).1.pendingAutoplay = st.pendingAutoplay := by
  simp only [stop_playback]
  split <;> exact ⟨rfl, rfl⟩

theorem on_playback_finished_frame (st : VM) :
    (on_playback_finished st).1.messageSentStatus = st.messageSentStatus ∧
    (on_playback_finished st).1.pendingAutoplay = st.pendingAutoplay := by
  unfold on_playback_finished
  split
  · exact ⟨rfl, rfl⟩
  · exact stop_playback_frame st

theorem play_current_frame (env : Env) (st : VM) :
    (play_current_message env st).1.messageSentStatus = st.messageSentStatus ∧
    (play_current_message env st).1.pendingAutoplay = st.pendingAutoplay := by
  unfold play_current_message
  rcases hpf : st.playbackFriend with _ | pf
  · exact ⟨rfl, rfl⟩
  · dsimp only
    by_cases hguard : ((st.messages pf).isEmpty = true ∨ st.playbackIndex < 0 ∨
        ((st.messages pf).length : Int) ≤ st.playbackIndex)
    · rw [if_pos hguard]
      exact stop_playback_frame st
    · rw [if_neg hguard]
      by_cases hfe : env.fileExists ((st.messages pf).getD st.playbackIndex.toNat default).file =
          true
      · rw [if_neg (by simpa using hfe)]
        by_cases hmark : (((st.messages pf).getD st.playbackIndex.toNat default).direction =
              Direction.received ∧
            ((st.messages pf).getD st.playbackIndex.toNat default).heard = false)
        · rw [if_pos hmark]
          cases hst : st.state <;> exact ⟨rfl, rfl⟩
        · rw [if_neg hmark]
          cases hst : st.state <;> exact ⟨rfl, rfl⟩
      · rw [if_pos (by simpa using hfe)]
        cases hst : st.state <;>
          simpa [hst] using on_playback_finished_frame _
  
theorem auto_play_frame (env : Env) (st : VM) (fid : String) :
    (auto_play_message env st fid).1.messageSentStatus = st.messageSentStatus ∧
    (auto_play_message env st fid).1.pendingAutoplay = st.pendingAutoplay := by
  unfold auto_play_message
  split
  · exact ⟨rfl, rfl⟩
  · by_cases hsel : st.selectedFriend ≠ some fid
    · rw [if_pos hsel]
      exact play_current_frame env _
    · rw [if_neg hsel]
      exact play_current_frame env _

theorem auto_play_messages (env : Env) (st : VM) (fid g : String) :
    (auto_play_message env st fid).1.messages g = st.messages g ∨
    (heardFlipAt (st.messages g) ((auto_play_message env st fid).1.messages g) 0 ∧ fid = g) := by
  unfold auto_play_message
  split
  · exact Or.inl rfl
  · have hgen : ∀ st1 : VM, st1.messages g = st.messages g → st1.playbackFriend = some fid →
        st1.playbackIndex = 0 →
        ((play_current_message env st1).1.messages g = st.messages g ∨
          (heardFlipAt (st.messages g) ((play_current_message env st1).1.messages g) 0 ∧
            fid = g)) := by
      intro st1 hm hpf1 hidx1
      rcases play_current_messages env st1 g with h | ⟨i, hflip, hpf2, hidx2, _, _, _⟩
      · exact Or.inl (by rw [h, hm])
      · have hfg : fid = g := by
          rw [hpf1] at hpf2
          exact Option.some_inj.mp hpf2
        have hi0 : i = 0 := by
          rw [hidx1] at hidx2
          omega
        subst hi0
        rw [hm] at hflip
        exact Or.inr ⟨hflip, hfg⟩
    by_cases hsel : st.selectedFriend ≠ some fid
    · rw [if_pos hsel]
      exact hgen _ rfl rfl rfl
    · rw [if_neg hsel]
      exact hgen _ rfl rfl rfl

end VoiceMessenger

namespace VoiceMessenger

/-- C2 counterexample: stopping a recording for friend `"a"` while a
message from `"a"` itself is pending autoplay starts playback at index
0 of `"a"`'s sequence — which is now the just-inserted `Sent` message,
not the pending received message: the audio played is the freshly
recorded clip, the pending message's audio is not played and it stays
unheard. -/
theorem c2_counterexample :
    exRecSame.pendingAutoplay = some ("a", exMd) ∧ exMd.file = "m2.wav" ∧
    (step exEnv (Event.recordButton (some "sent.wav")) exRecSame).1.state = SState.playing ∧
    (step exEnv (Event.recordButton (some "sent.wav")) exRecSame).1.playbackFriend = some "a" ∧
    (step exEnv (Event.recordButton (some "sent.wav")) exRecSame).1.playbackIndex = 0 ∧
    ((step exEnv (Event.recordButton (some "sent.wav")) exRecSame).1.messages "a").getD 0
        default =
      { id := "sid-1", file := "sent.wav", timestamp := 7, heard := true,
        direction := Direction.sent } ∧
    Effect.playAudio "sent.wav" ∈ (step exEnv (Event.recordButton (some "sent.wav")) exRecSame).2 ∧
    Effect.playAudio "m2.wav" ∉ (step exEnv (Event.recordButton (some "sent.wav")) exRecSame).2 ∧
    ((step exEnv (Event.recordButton (some "sent.wav")) exRecSame).1.messages "a").getD 1
        default =
      { exRecv with heard := false } := by
  decide

/-- C2 (amended): `RecordButtonPressed` in `Recording` with selected
friend `f` and capture yielding audio: one `Sent` message (fresh id,
current time, `heard = true`) is inserted at index 0 of `f`'s
sequence, `SentStatus[f]` is set, recording-stop and capture-stop are
issued and the transport send for `f` is invoked; `pending_autoplay`
ends cleared.  If nothing was pending the coordinator ends in `Idle`
with the playback cursor untouched.  If a message from `pf ≠ f` was
pending, playback immediately begins on `pf` at index 0 (the pending
message, newest of `pf`); but if the pending message came from `f`
itself, playback begins on `f` at index 0, which is now the just-sent
message rather than the pending one. -/
theorem c2_record_stop (env : Env) (st : VM) (f file : String)
    (hrec : st.state = SState.recording) (hsel : st.selectedFriend = some f) :
    ((step env (Event.recordButton (some file)) st).1.messages f =
      { id := env.freshId, file := file, timestamp := env.now, heard := true,
        direction := Direction.sent } :: st.messages f) ∧
    (step env (Event.recordButton (some file)) st).1.messageSentStatus f = true ∧
    Effect.sendRecordingStopped f ∈ (step env (Event.recordButton (some file)) st).2 ∧
    Effect.stopCapture ∈ (step env (Event.recordButton (some file)) st).2 ∧
    Effect.sendVoice f file ∈ (step env (Event.recordButton (some file)) st).2 ∧
    (step env (Event.recordButton (some file)) st).1.pendingAutoplay = none ∧
    (st.pendingAutoplay = none →
      (step env (Event.recordButton (some file)) st).1.state = SState.idle ∧
      (step env (Event.recordButton (some file)) st).1.playbackFriend = st.playbackFriend ∧
      (step env (Event.recordButton (some file)) st).1.playbackIndex = st.playbackIndex) ∧
    (∀ pf pmd, st.pendingAutoplay = some (pf, pmd) → pf ≠ f → st.messages pf ≠ [] →
      env.fileExists ((st.messages pf).getD 0 default).file = true →
      (step env (Event.recordButton (some file)) st).1.state = SState.playing ∧
      (step env (Event.recordButton (some file)) st).1.selectedFriend = some pf ∧
      (step env (Event.recordButton (some file)) st).1.playbackFriend = some pf ∧
      (step env (Event.recordButton (some file)) st).1.playbackIndex = 0 ∧
      Effect.playAudio ((st.messages pf).getD 0 default).file ∈
        (step env (Event.recordButton (some file)) st).2) ∧
    (∀ pmd, st.pendingAutoplay = some (f, pmd) →
      env.fileExists file = true →
      (step env (Event.recordButton (some file)) st).1.state = SState.playing ∧
      (step env (Event.recordButton (some file)) st).1.playbackFriend = some f ∧
      (step env (Event.recordButton (some file)) st).1.playbackIndex = 0 ∧
      Effect.playAudio file ∈ (step env (Event.recordButton (some file)) st).2) := by
  have hopen : step env (Event.recordButton (some file)) st =
      stop_recording_and_send env st (some file) := by
    simp [step, handle_record_button, hrec]
  rw [hopen]
  unfold stop_recording_and_send
  rw [if_neg (by simp [hrec]), hsel]
  dsimp only
  have hlenf : ¬ (((st.messages f).length : Int) + 1 ≤ 0) := by omega
  refine ⟨?_, ?_, ?_, ?_, ?_, ?_, ?_, ?_, ?_⟩
  · cases hp : st.pendingAutoplay with
    | none => simp [updF]
    | some pr =>
      obtain ⟨pf, pmd⟩ := pr
      by_cases hpff : pf = f
      · subst hpff
        by_cases hfe : env.fileExists file = true <;>
          simp [auto_play_message, select_friend, play_current_message, stop_playback,
            on_playback_finished, updF, hlenf, hfe, hsel]
      · have hfp : f ≠ pf := fun h => hpff h.symm
        by_cases hempty : (st.messages pf).isEmpty = true
        · simp [auto_play_message, select_friend, play_current_message, stop_playback,
            on_playback_finished, updF, hempty, hpff, hfp, hsel]
        · have h1 : st.messages pf ≠ [] := by simpa [List.isEmpty_iff] using hempty
          have h2 : 0 < (st.messages pf).length := List.length_pos.mpr h1
          have hlen : ¬ (((st.messages pf).length : Int) ≤ 0) := by omega
          by_cases hfe : env.fileExists
              ((((st.messages pf)[(0 : Nat)]?).getD default)).file = true <;>
            by_cases hmark : ((((st.messages pf)[(0 : Nat)]?).getD default).direction =
                  Direction.received ∧
                (((st.messages pf)[(0 : Nat)]?).getD default).heard = false) <;>
            simp [auto_play_message, select_friend, play_current_message, stop_playback,
              on_playback_finished, updF, hempty, hpff, hfp, hsel, hlen, hfe, hmark,
              List.getD_eq_getElem?_getD]
  · cases hp : st.pendingAutoplay with
    | none => simp [updF]
    | some pr =>
      obtain ⟨pf, pmd⟩ := pr
      by_cases hpff : pf = f
      · subst hpff
        by_cases hfe : env.fileExists file = true <;>
          simp [auto_play_message, select_friend, play_current_message, stop_playback,
            on_playback_finished, updF, hlenf, hfe, hsel]
      · have hfp : f ≠ pf := fun h => hpff h.symm
        by_cases hempty : (st.messages pf).isEmpty = true
        · simp [auto_play_message, select_friend, play_current_message, stop_playback,
            on_playback_finished, updF, hempty, hpff, hfp, hsel]
        · have h1 : st.messages pf ≠ [] := by simpa [List.isEmpty_iff] using hempty
          have h2 : 0 < (st.messages pf).length := List.length_pos.mpr h1
          have hlen : ¬ (((st.messages pf).length : Int) ≤ 0) := by omega
          by_cases hfe : env.fileExists
              ((((st.messages pf)[(0 : Nat)]?).getD default)).file = true <;>
            by_cases hmark : ((((st.messages pf)[(0 : Nat)]?).getD default).direction =
                  Direction.received ∧
                (((st.messages pf)[(0 : Nat)]?).getD default).heard = false) <;>
            simp [auto_play_message, select_friend, play_current_message, stop_playback,
              on_playback_finished, updF, hempty, hpff, hfp, hsel, hlen, hfe, hmark,
              List.getD_eq_getElem?_getD]
  · cases hp : st.pendingAutoplay with
    | none => simp
    | some pr =>
      obtain ⟨pf, pmd⟩ := pr
      simp
  · cases hp : st.pendingAutoplay with
    | none => simp
    | some pr =>
      obtain ⟨pf, pmd⟩ := pr
      simp
  · cases hp : st.pendingAutoplay with
    | none => simp
    | some pr =>
      obtain ⟨pf, pmd⟩ := pr
      simp
  · cases hp : st.pendingAutoplay with
    | none => simp
    | some pr =>
      obtain ⟨pf, pmd⟩ := pr
      by_cases hpff : pf = f
      · subst hpff
        by_cases hfe : env.fileExists file = true <;>
          simp [auto_play_message, select_friend, play_current_message, stop_playback,
            on_playback_finished, updF, hlenf, hfe, hsel]
      · have hfp : f ≠ pf := fun h => hpff h.symm
        by_cases hempty : (st.messages pf).isEmpty = true
        · simp [auto_play_message, select_friend, play_current_message, stop_playback,
            on_playback_finished, updF, hempty, hpff, hfp, hsel]
        · have h1 : st.messages pf ≠ [] := by simpa [List.isEmpty_iff] using hempty
          have h2 : 0 < (st.messages pf).length := List.length_pos.mpr h1
          have hlen : ¬ (((st.messages pf).length : Int) ≤ 0) := by omega
          by_cases hfe : env.fileExists
              ((((st.messages pf)[(0 : Nat)]?).getD default)).file = true <;>
            by_cases hmark : ((((st.messages pf)[(0 : Nat)]?).getD default).direction =
                  Direction.received ∧
                (((st.messages pf)[(0 : Nat)]?).getD default).heard = false) <;>
            simp [auto_play_message, select_friend, play_current_message, stop_playback,
              on_playback_finished, updF, hempty, hpff, hfp, hsel, hlen, hfe, hmark,
              List.getD_eq_getElem?_getD]
  · intro hp
    rw [hp]
    simp
  · intro pf pmd hp hpff hne hfile
    rw [hp]
    have hfp : f ≠ pf := fun h => hpff h.symm
    have hempty : ¬ (st.messages pf).isEmpty = true := by
      simpa [List.isEmpty_iff] using hne
    have h2 : 0 < (st.messages pf).length := List.length_pos.mpr hne
    have hlen : ¬ (((st.messages pf).length : Int) ≤ 0) := by omega
    have hfile' : env.fileExists ((((st.messages pf)[(0 : Nat)]?).getD default)).file = true := by
      simpa [List.getD_eq_getElem?_getD] using hfile
    by_cases hmark : ((((st.messages pf)[(0 : Nat)]?).getD default).direction =
          Direction.received ∧
        (((st.messages pf)[(0 : Nat)]?).getD default).heard = false) <;>
      simp [auto_play_message, select_friend, play_current_message, stop_playback,
        on_playback_finished, updF, hempty, hpff, hfp, hsel, hlen, hfile', hmark,
        List.getD_eq_getElem?_getD]
  · intro pmd hp hfile
    rw [hp]
    simp [auto_play_message, select_friend, play_current_message, stop_playback,
      on_playback_finished, updF, hlenf, hfile, hsel]

theorem c2_record_stop_witness :
    exRecOther.state = SState.recording ∧ exRecOther.selectedFriend = some "b" ∧
    exRecOther.pendingAutoplay = some ("a", exMd) ∧
    ((step exEnv (Event.recordButton (some "out.wav")) exRecOther).1.state = SState.playing ∧
     (step exEnv (Event.recordButton (some "out.wav")) exRecOther).1.selectedFriend = some "a" ∧
     (step exEnv (Event.recordButton (some "out.wav")) exRecOther).1.playbackFriend = some "a" ∧
     (step exEnv (Event.recordButton (some "out.wav")) exRecOther).1.playbackIndex = 0 ∧
     Effect.playAudio ((exRecOther.messages "a").getD 0 default).file ∈
       (step exEnv (Event.recordButton (some "out.wav")) exRecOther).2) :=
  ⟨by decide, by decide, by decide,
   (c2_record_stop exEnv exRecOther "b" "out.wav" (by decide) (by decide)).2.2.2.2.2.2.2.1
     "a" exMd (by decide) (by decide) (by decide) (by decide)⟩

end VoiceMessenger

namespace VoiceMessenger

theorem stop_playback_wf (st : VM) : cursorWellFormed (stop_playback st).1 := by
  simp only [stop_playback]
  split
  · exact ⟨fun hc => (nomatch hc), fun _ => ⟨rfl, rfl⟩⟩
  · next h => exact ⟨fun hc => absurd hc h, fun _ => ⟨rfl, rfl⟩⟩

theorem on_playback_finished_wf (st : VM) (h : cursorWellFormed st) :
    cursorWellFormed (on_playback_finished st).1 := by
  unfold on_playback_finished
  split
  · exact h
  · exact stop_playback_wf st

theorem on_playback_finished_wf_playing (st : VM) (h : st.state = SState.playing) :
    cursorWellFormed (on_playback_finished st).1 := by
  unfold on_playback_finished
  rw [if_neg (by simp [h])]
  exact stop_playback_wf st

theorem play_current_wf (env : Env) (st : VM) (pf : String)
    (hpf : st.playbackFriend = some pf) (hsel : st.selectedFriend = some pf) :
    cursorWellFormed (play_current_message env st).1 := by
  unfold play_current_message
  rw [hpf]
  dsimp only
  by_cases hguard : ((st.messages pf).isEmpty = true ∨ st.playbackIndex < 0 ∨
      ((st.messages pf).length : Int) ≤ st.playbackIndex)
  · rw [if_pos hguard]
    exact stop_playback_wf st
  · rw [if_neg hguard]
    push_neg at hguard
    obtain ⟨hne, hge, hlt⟩ := hguard
    by_cases hfe : env.fileExists ((st.messages pf).getD st.playbackIndex.toNat default).file =
        true
    · rw [if_neg (by simpa using hfe)]
      by_cases hmark : (((st.messages pf).getD st.playbackIndex.toNat default).direction =
            Direction.received ∧
          ((st.messages pf).getD st.playbackIndex.toNat default).heard = false)
      · rw [if_pos hmark]
        cases hst : st.state <;>
          simp [cursorWellFormed, updF, hpf, hsel, hst, List.length_set, hge, hlt]
      · rw [if_neg hmark]
        cases hst : st.state <;>
          simp [cursorWellFormed, hpf, hsel, hst, hge, hlt]
    · rw [if_pos (by simpa using hfe)]
      cases hst : st.state
      · exact on_playback_finished_wf_playing _ (by simp [hst])
      · exact on_playback_finished_wf_playing _ (by simp [hst])
      · exact on_playback_finished_wf_playing _ (by simp [hst])

theorem start_playback_wf (env : Env) (st : VM) (fid : String) (h : cursorWellFormed st)
    (hsel : st.selectedFriend = some fid) :
    cursorWellFormed (start_playback env st fid).1 := by
  unfold start_playback
  split
  · exact h
  · exact play_current_wf env _ fid rfl hsel

theorem auto_play_wf (env : Env) (st : VM) (fid : String) (h : cursorWellFormed st) :
    cursorWellFormed (auto_play_message env st fid).1 := by
  unfold auto_play_message
  split
  · exact h
  · by_cases hsel : st.selectedFriend ≠ some fid
    · rw [if_pos hsel]
      exact play_current_wf env _ fid rfl rfl
    · rw [if_neg hsel]
      push_neg at hsel
      exact play_current_wf env _ fid rfl hsel

theorem play_previous_wf (env : Env) (st : VM) (pf : String)
    (hpf : st.playbackFriend = some pf) (hsel : st.selectedFriend = some pf) :
    cursorWellFormed (play_previous_message env st).1 := by
  unfold play_previous_message
  rw [hpf]
  dsimp only
  exact play_current_wf env _ pf rfl hsel

theorem select_friend_wf (st : VM) (fid : String) (h : cursorWellFormed st)
    (hst : st.state ≠ SState.playing) :
    cursorWellFormed (select_friend st fid) :=
  ⟨fun hc => absurd hc hst, fun _ => h.2 hst⟩

theorem cancel_recording_wf (st : VM) (h : cursorWellFormed st) :
    cursorWellFormed (cancel_recording st).1 := by
  unfold cancel_recording
  split
  · exact h
  · next hrec2 =>
    have hst : st.state = SState.recording := not_not.mp hrec2
    exact ⟨fun hc => (nomatch hc), fun _ => h.2 (by simp [hst])⟩

theorem start_recording_wf (st : VM) (h : cursorWellFormed st)
    (hst : st.state ≠ SState.playing) :
    cursorWellFormed (start_recording st).1 := by
  unfold start_recording
  cases hselx : st.selectedFriend
  · exact h
  · exact ⟨fun hc => (nomatch hc), fun _ => h.2 hst⟩

theorem stop_recording_and_send_wf (env : Env) (st : VM) (capture : Option String)
    (h : cursorWellFormed st) :
    cursorWellFormed (stop_recording_and_send env st capture).1 := by
  unfold stop_recording_and_send
  split
  · exact h
  · next hrec2 =>
    have hst : st.state = SState.recording := not_not.mp hrec2
    have hcur := h.2 (by simp [hst])
    cases hselx : st.selectedFriend with
    | none => exact h
    | some f =>
      dsimp only
      cases capture with
      | none =>
        cases hp : st.pendingAutoplay with
        | none => exact ⟨fun hc => (nomatch hc), fun _ => hcur⟩
        | some pr =>
          obtain ⟨pf, pmd⟩ := pr
          exact auto_play_wf env _ pf ⟨fun hc => (nomatch hc), fun _ => hcur⟩
      | some file =>
        cases hp : st.pendingAutoplay with
        | none => exact ⟨fun hc => (nomatch hc), fun _ => hcur⟩
        | some pr =>
          obtain ⟨pf, pmd⟩ := pr
          exact auto_play_wf env _ pf ⟨fun hc => (nomatch hc), fun _ => hcur⟩

theorem handle_message_received_wf (env : Env) (st : VM) (fid : String) (md : MsgData)
    (h : cursorWellFormed st) :
    cursorWellFormed (handle_message_received env st fid md).1 := by
  unfold handle_message_received
  dsimp only
  have hst1 : cursorWellFormed
      { st with
        messages :=
          updF st.messages fid
            ({ id := md.id, file := md.file, timestamp := md.timestamp, heard := false,
                direction := Direction.received } ::
              st.messages fid) } := by
    obtain ⟨h1, h2⟩ := h
    constructor
    · intro hc
      obtain ⟨ha, hb, hc0, hd⟩ := h1 hc
      refine ⟨ha, hb, hc0, ?_⟩
      simp only [updF]
      split
      · next heq =>
        rw [heq] at hd
        simp only [List.length_cons]
        push_cast
        omega
      · exact hd
    · exact h2
  by_cases hconv : st.conversationMode = true
  · rw [if_pos hconv]
    by_cases hrec : st.state = SState.recording
    · rw [if_pos hrec]
      exact hst1
    · rw [if_neg hrec]
      by_cases hidle : st.state = SState.idle
      · rw [if_pos hidle]
        exact auto_play_wf env _ fid hst1
      · rw [if_neg hidle]
        exact hst1
  · rw [if_neg hconv]
    exact hst1

theorem handle_dialog_wf (st : VM) (h : cursorWellFormed st) :
    cursorWellFormed (handle_dialog_button st).1 := by
  unfold handle_dialog_button
  dsimp only
  cases hst : st.state <;> split
  · exact h
  · exact h
  · exact cancel_recording_wf st h
  · exact cancel_recording_wf st h
  · exact stop_playback_wf st
  · exact stop_playback_wf st

end VoiceMessenger

namespace VoiceMessenger

/-- C10: the playback cursor is well-formed at start-up and stays
well-formed across every coordinator transition: whenever the state is
`Playing` the cursor friend is set, equals the selected friend, and
the index lies inside that friend's non-empty conversation; whenever
the state is not `Playing` the cursor carries the reset sentinels
(`playback_friend = None`, `playback_index = -1`).  In particular,
comparing a pressed friend button against `selected_friend` while
`Playing` is the same comparison as against the cursor's friend. -/
theorem c10_cursor_invariant (env : Env) (ev : Event) (st : VM) (firstFriend : Option String)
    (h : cursorWellFormed st) :
    cursorWellFormed (initVM firstFriend) ∧ cursorWellFormed (step env ev st).1 := by
  refine ⟨⟨fun hc => (nomatch hc), fun _ => ⟨rfl, rfl⟩⟩, ?_⟩
  cases ev with
  | friendButton f =>
    cases hst : st.state with
    | recording =>
      simp only [step, handle_friend_button, hst]
      exact cancel_recording_wf st h
    | playing =>
      by_cases hsel : st.selectedFriend = some f
      · simp only [step, handle_friend_button, hst, if_pos hsel]
        obtain ⟨hiso, hpfsel, _, _⟩ := h.1 hst
        have hpf : st.playbackFriend = some f := by rw [hpfsel, hsel]
        exact play_previous_wf env st f hpf hsel
      · simp only [step, handle_friend_button, hst, if_neg hsel]
        refine select_friend_wf _ f (stop_playback_wf st) ?_
        simp [stop_playback, hst]
    | idle =>
      by_cases hsel : st.selectedFriend = some f
      · simp only [step, handle_friend_button, hst, if_pos hsel]
        exact start_playback_wf env st f h hsel
      · simp only [step, handle_friend_button, hst, if_neg hsel]
        exact select_friend_wf st f h (by simp [hst])
  | recordButton capture =>
    cases hst : st.state with
    | recording =>
      simp only [step, handle_record_button, hst]
      exact stop_recording_and_send_wf env st capture h
    | playing =>
      simp only [step, handle_record_button, hst]
      exact stop_playback_wf st
    | idle =>
      cases hselx : st.selectedFriend with
      | none =>
        simp only [step, handle_record_button, hst, hselx]
        exact h
      | some f =>
        by_cases hon : env.peerStatus f = PeerStatus.online
        · simp only [step, handle_record_button, hst, hselx, if_pos hon]
          exact start_recording_wf st h (by simp [hst])
        · simp only [step, handle_record_button, hst, hselx, if_neg hon]
          exact h
  | dialogButton =>
    simp only [step]
    exact handle_dialog_wf st h
  | messageArrived f md =>
    simp only [step]
    exact handle_message_received_wf env st f md h
  | messageHeardAck f mid => exact ⟨h.1, h.2⟩
  | peerRecordingStarted f => exact ⟨h.1, h.2⟩
  | peerRecordingStopped f => exact ⟨h.1, h.2⟩
  | playbackFinished =>
    simp only [step]
    exact on_playback_finished_wf st h
  | conversationTimeout => exact ⟨h.1, h.2⟩

theorem c10_cursor_invariant_witness :
    cursorWellFormed exPlaying ∧
    (cursorWellFormed (initVM (some "a")) ∧
     cursorWellFormed (step exEnv Event.playbackFinished exPlaying).1) :=
  ⟨by decide, c10_cursor_invariant exEnv Event.playbackFinished exPlaying (some "a") (by decide)⟩

end VoiceMessenger

namespace VoiceMessenger

theorem c7_playback_navigation_witness :
    exPlayingTwo.state = SState.playing ∧ exPlayingTwo.playbackIndex = 1 ∧
    (exPlayingTwo.messages "a").length = 2 ∧
    ((step exEnv (Event.friendButton "a") exPlayingTwo).1.playbackIndex =
       (1 + 1) % ((exPlayingTwo.messages "a").length : Int) ∧
     (step exEnv (Event.friendButton "a") exPlayingTwo).1.playbackFriend = some "a" ∧
     (step exEnv (Event.friendButton "a") exPlayingTwo).1.selectedFriend = some "a" ∧
     (step exEnv (Event.friendButton "a") exPlayingTwo).1.state = SState.playing ∧
     Effect.playAudio
         (((exPlayingTwo.messages "a").getD
             ((1 + 1) % ((exPlayingTwo.messages "a").length : Int)).toNat default).file) ∈
       (step exEnv (Event.friendButton "a") exPlayingTwo).2) ∧
    ((step exEnv (Event.friendButton "b") exPlayingTwo).1.state = SState.idle ∧
     (step exEnv (Event.friendButton "b") exPlayingTwo).1.playbackFriend = none ∧
     (step exEnv (Event.friendButton "b") exPlayingTwo).1.playbackIndex = -1 ∧
     (step exEnv (Event.friendButton "b") exPlayingTwo).1.selectedFriend = some "b") :=
  ⟨by decide, by decide, by decide,
   (c7_playback_navigation exEnv exPlayingTwo "a" "b" 1 (by decide) (by decide) (by decide)
      (by decide) (by decide) (by decide) (by decide) (by decide)).1,
   (c7_playback_navigation exEnv exPlayingTwo "a" "b" 1 (by decide) (by decide) (by decide)
      (by decide) (by decide) (by decide) (by decide) (by decide)).2⟩

end VoiceMessenger
